import Mathlib

/-!
Shallow embedding of the Recruiter Chat API backend (src/main.py).

The program is a single-file FastAPI service: a chat endpoint that looks up
or creates a MongoDB session document, builds a context window from the last
10 stored turns, calls the Groq chat-completion API, and on success appends
the user and assistant turns to the session document.

Modelling conventions:
- MongoDB collection `chats_collection` is a list of documents; `find_one`
  returns the first document whose session_id matches, `insert_one` appends,
  and `update_one` rewrites the first matching document.
- `datetime.utcnow()` values are abstract `Nat` timestamps supplied as
  parameters, one per call site (t1 = created_at, t2 = user turn,
  t3 = assistant turn, t4 = updated_at).
- The outbound HTTP call to the Groq API is an oracle
  `net : List ApiMessage → NetOutcome`; the embedding records the payload of
  every request actually issued in a `sent` field, so that claims about
  "no outbound network call" and about the context window are statable.
- Python dicts with differing key sets are modelled with Option fields:
  a stored message dict always carries a `timestamp` key, while the system
  prompt dict and the freshly appended user dict do not, hence
  `ApiMessage.timestamp : Option Nat`; the session document created at
  line 154 of main.py has no `updated_at` key, hence
  `ChatDoc.updated_at : Option Nat`.
- `raise HTTPException` is modelled with `Except HTTPError`; `str(e)` of an
  HTTPException is `"{status_code}: {detail}"` (Starlette), modelled by
  `HTTPError.str`.
-/

/-- The static system prompt CANDIDATE_INFO (main.py lines 58-92). -/
def CANDIDATE_INFO : String :=
"
Name: [Your Full Name]
Current Role: [Your Current Position]
Experience: [Years] years in [Your Field]

Key Skills:
- [Skill 1 - e.g., Python, JavaScript, React]
- [Skill 2 - e.g., Machine Learning, Data Analysis]
- [Skill 3 - e.g., Cloud Computing, AWS, Docker]
- [Add more relevant skills]

Recent Experience:
- [Company Name]: [Your Role] ([Duration - e.g., 2022-Present])
  • [Key achievement or responsibility]
  • [Another achievement with metrics if possible]

- [Previous Company]: [Previous Role] ([Duration])
  • [Key achievement]
  • [Another achievement]

Education:
- [Degree] in [Field] from [University] ([Year])
- [Any relevant certifications or additional education]

Notable Projects:
- [Project 1]: [Brief description and technologies used]
- [Project 2]: [Brief description and impact/results]

Interests: [What type of roles/companies you\x27re interested in]
Location: [Your location and remote work preferences]
Availability: [Current availability status]

Instructions for AI:
You are representing this candidate to recruiters. Be professional, enthusiastic, and highlight relevant experience based on what the recruiter is asking about. Answer questions about their background, skills, and experience. If you don\x27t have specific information about something, politely indicate that the recruiter can reach out directly to the candidate for more details. Always be honest about the candidate\x27s experience and don\x27t exaggerate. Be helpful in understanding if there might be a good fit for their role.
"

/-- Pydantic model RecruiterInfo (main.py lines 43-46): three optional fields. -/
structure RecruiterInfo where
  company : Option String := none
  email : Option String := none
  name : Option String := none
deriving DecidableEq

/-- A stored turn dict, as pushed into the messages array (main.py
lines 163-167 and 177-181): always has role, content and timestamp keys. -/
structure StoredMessage where
  role : String
  content : String
  timestamp : Nat
deriving DecidableEq

/-- A message dict handed to the Groq API. `timestamp = none` models a dict
with only role and content keys (the system prompt at line 100 and the new
user message at line 171); `timestamp = some t` models a stored message dict
read back from MongoDB, which carries its timestamp key along. -/
structure ApiMessage where
  role : String
  content : String
  timestamp : Option Nat
deriving DecidableEq

/-- A stored message read back from MongoDB keeps all its keys when put in
the messages_for_ai list (main.py line 170). -/
def StoredMessage.toApi (m : StoredMessage) : ApiMessage :=
  { role := m.role, content := m.content, timestamp := some m.timestamp }

/-- A session document in the chats collection (main.py lines 154-159 for the
shape at creation; update_one at 184-194 adds the updated_at key). -/
structure ChatDoc where
  session_id : String
  messages : List StoredMessage
  recruiter_info : Option RecruiterInfo
  created_at : Nat
  updated_at : Option Nat
deriving DecidableEq

/-- The chats collection. -/
abbrev Store := List ChatDoc

/-- chats_collection.find_one with filter on session_id (main.py line 150):
first matching document, if any. -/
def find_one (store : Store) (sid : String) : Option ChatDoc :=
  store.find? (fun d => d.session_id == sid)

/-- chats_collection.insert_one (main.py line 160). -/
def insert_one (store : Store) (d : ChatDoc) : Store :=
  store ++ [d]

/-- Rewrite the first document matching sid with f, like Mongo update_one. -/
def updateFirst (sid : String) (f : ChatDoc → ChatDoc) : Store → Store
  | [] => []
  | d :: ds => if d.session_id == sid then f d :: ds else d :: updateFirst sid f ds

/-- chats_collection.update_one (main.py lines 184-194): push the given turns
onto the messages array of the first matching document, in order, and set
updated_at. -/
def update_one_push (store : Store) (sid : String) (turns : List StoredMessage)
    (t4 : Nat) : Store :=
  updateFirst sid
    (fun d => { d with messages := d.messages ++ turns, updated_at := some t4 }) store

/-- A raised HTTPException: status code and detail string. -/
structure HTTPError where
  status_code : Nat
  detail : String
deriving DecidableEq

/-- str(e) for a Starlette HTTPException: "status_code: detail". -/
def HTTPError.str (e : HTTPError) : String :=
  toString e.status_code ++ ": " ++ e.detail

/-- The provider HTTP response, as consumed by main.py lines 125-132:
its status code, its parsed first-choice content
result["choices"][0]["message"]["content"], and its raw text. -/
structure HttpResponse where
  status_code : Nat
  firstChoiceContent : String
  text : String
deriving DecidableEq

/-- Outcome of the single outbound httpx post (main.py lines 110-137):
either a response came back, or the call timed out
(httpx.TimeoutException), or some other exception with message msg. -/
inductive NetOutcome where
  | response (r : HttpResponse)
  | timeout
  | exn (msg : String)
deriving DecidableEq

/-- Python truthiness of os.getenv: `if not groq_api_key` is taken when the
variable is unset (None) or empty (main.py lines 104-105). -/
def apiKeyFalsy : Option String → Bool
  | none => true
  | some s => s == ""

/-- Result of get_chat_response, together with the payloads of the outbound
requests actually issued (empty when no network call was attempted). -/
structure LLMResult where
  result : Except HTTPError String
  sent : List (List ApiMessage)

/-- get_chat_response (main.py lines 95-137). Builds api_messages as the
system prompt followed by the given messages; fails before any network call
when the API key is falsy; otherwise issues one request. A non-200 status
raises an HTTPException inside the try block, which the generic
`except Exception` handler at line 136 catches and rewraps as a 500
"Error calling Groq API: ..." (str(e) of the inner exception); a timeout
maps to 504; any other exception maps to a 500 with its message. -/
def get_chat_response (apiKey : Option String) (net : List ApiMessage → NetOutcome)
    (messages : List ApiMessage) : LLMResult :=
  let api_messages : List ApiMessage :=
    { role := "system", content := CANDIDATE_INFO, timestamp := none } :: messages
  if apiKeyFalsy apiKey then
    { result := .error { status_code := 500, detail := "Groq API key not configured" },
      sent := [] }
  else
    match net api_messages with
    | .response r =>
        if r.status_code == 200 then
          { result := .ok r.firstChoiceContent, sent := [api_messages] }
        else
          { result := .error
              { status_code := 500,
                detail := "Error calling Groq API: "
                  ++ HTTPError.str
                       { status_code := r.status_code,
                         detail := "Groq API error: " ++ r.text } },
            sent := [api_messages] }
    | .timeout =>
        { result := .error { status_code := 504, detail := "Request timeout" },
          sent := [api_messages] }
    | .exn m =>
        { result := .error { status_code := 500, detail := "Error calling Groq API: " ++ m },
          sent := [api_messages] }

/-- Request body of POST /api/chat (main.py lines 48-51). -/
structure ChatRequest where
  message : String
  session_id : String
  recruiter_info : Option RecruiterInfo
deriving DecidableEq

/-- Response body of POST /api/chat (main.py lines 53-55). -/
structure ChatResponse where
  response : String
  session_id : String
deriving DecidableEq

/-- Result of one chat_endpoint call: the HTTP result, the post-state of the
chats collection, and the payloads of outbound LLM requests issued. -/
structure EndpointResult where
  result : Except HTTPError ChatResponse
  store : Store
  sent : List (List ApiMessage)

/-- The get-or-create step of chat_endpoint (main.py lines 150-160): find_one
by session_id; when absent, build a document with empty messages, the
request recruiter_info (None models the literal empty dict) and created_at
only, and insert it. -/
def get_or_create (store : Store) (sid : String) (rinfo : Option RecruiterInfo)
    (t1 : Nat) : ChatDoc × Store :=
  match find_one store sid with
  | some d => (d, store)
  | none =>
      let d : ChatDoc :=
        { session_id := sid, messages := [], recruiter_info := rinfo,
          created_at := t1, updated_at := none }
      (d, insert_one store d)

/-- The context window (main.py line 170):
chat_doc["messages"][-10:] if chat_doc["messages"] else []. -/
def contextWindow (msgs : List StoredMessage) : List StoredMessage :=
  if msgs.isEmpty then [] else msgs.drop (msgs.length - 10)

/-- The messages_for_ai list (main.py lines 169-171): the context window of
the session document, followed by the new user message dict (role and
content keys only). -/
def messagesForAi (doc : ChatDoc) (message : String) : List ApiMessage :=
  (contextWindow doc.messages).map StoredMessage.toApi
    ++ [{ role := "user", content := message, timestamp := none }]

/-- chat_endpoint (main.py lines 143-199). The body runs inside a try/except
that rewraps every exception e as HTTPException(500, "Error processing
chat: " + str(e)). On LLM success it pushes the user and assistant turns in
one update_one and returns the AI response with the request session_id. -/
def chat_endpoint (apiKey : Option String) (net : List ApiMessage → NetOutcome)
    (t1 t2 t3 t4 : Nat) (req : ChatRequest) (store : Store) : EndpointResult :=
  let gc := get_or_create store req.session_id req.recruiter_info t1
  let store1 := gc.2
  let user_message : StoredMessage :=
    { role := "user", content := req.message, timestamp := t2 }
  let r := get_chat_response apiKey net (messagesForAi gc.1 req.message)
  match r.result with
  | .ok ai_response =>
      let assistant_message : StoredMessage :=
        { role := "assistant", content := ai_response, timestamp := t3 }
      let store2 := update_one_push store1 req.session_id
        [user_message, assistant_message] t4
      { result := .ok { response := ai_response, session_id := req.session_id },
        store := store2, sent := r.sent }
  | .error e =>
      { result := .error
          { status_code := 500, detail := "Error processing chat: " ++ e.str },
        store := store1, sent := r.sent }

/-- health_check (main.py lines 201-209): ping = none models a successful
db.command("ping"); ping = some msg models it raising an exception with
message msg, surfaced as a 503. -/
def health_check (ping : Option String) (now : Nat) : Except HTTPError (String × Nat) :=
  match ping with
  | none => .ok ("healthy", now)
  | some msg =>
      .error { status_code := 503, detail := "Database connection failed: " ++ msg }

/-- The turn sequence stored for a session (empty when the session is absent). -/
def storedMessages (store : Store) (sid : String) : List StoredMessage :=
  match find_one store sid with
  | some d => d.messages
  | none => []

/-- Number of documents in the collection with the given session_id. -/
def countSessions (store : Store) (sid : String) : Nat :=
  store.countP (fun d => d.session_id == sid)

/-- The strict user/assistant pairing shape: the list is a concatenation of
two-element blocks, a user turn followed by an assistant turn. -/
def userAssistantPairs : List StoredMessage → Bool
  | [] => true
  | u :: a :: rest => u.role == "user" && a.role == "assistant" && userAssistantPairs rest
  | [_] => false

/-- One chat call with its four utcnow() readings. -/
structure CallInput where
  req : ChatRequest
  t1 : Nat
  t2 : Nat
  t3 : Nat
  t4 : Nat

/-- Run a sequence of chat calls strictly one after the other (no concurrent
interleaving), threading the store; returns the final store and the
per-call results in call order. -/
def runChats (apiKey : Option String) (net : List ApiMessage → NetOutcome) :
    List CallInput → Store → Store × List (Except HTTPError ChatResponse)
  | [], store => (store, [])
  | c :: cs, store =>
      let r := chat_endpoint apiKey net c.t1 c.t2 c.t3 c.t4 c.req store
      let rest := runChats apiKey net cs r.store
      (rest.1, r.result :: rest.2)

/-- Whether a call result is a success. -/
def resultOk : Except HTTPError ChatResponse → Bool
  | .ok _ => true
  | .error _ => false

/-- The assistant content of a successful result. -/
def okContent : Except HTTPError ChatResponse → String
  | .ok r => r.response
  | .error _ => ""

/-- The turn pairs a sequence of successful calls appends: per call, the user
turn (request message, timestamp t2) then the assistant turn (the returned
content, timestamp t3). -/
def pairsOf (calls : List CallInput) (results : List (Except HTTPError ChatResponse)) :
    List StoredMessage :=
  ((calls.zip results).map (fun p =>
    [ { role := "user", content := p.1.req.message, timestamp := p.1.t2 },
      { role := "assistant", content := okContent p.2, timestamp := p.1.t3 } ])).flatten

/-! ## Store lemmas -/

theorem find_one_append (store : Store) (d : ChatDoc) (sid : String) :
    find_one (store ++ [d]) sid =
      match find_one store sid with
      | some x => some x
      | none => if d.session_id == sid then some d else none := by
  induction store with
  | nil =>
      by_cases h : d.session_id = sid
      · simp [find_one, List.find?, h]
      · have hb : (d.session_id == sid) = false := beq_eq_false_iff_ne.mpr h
        simp [find_one, List.find?, hb, h]
  | cons a as ih =>
      by_cases h : a.session_id == sid
      · simp [find_one, List.find?, h]
      · simp only [Bool.not_eq_true] at h
        simpa [find_one, List.find?, h] using ih

theorem find_one_updateFirst (sid sid' : String) (f : ChatDoc → ChatDoc)
    (hf : ∀ d, (f d).session_id = d.session_id) (store : Store) :
    find_one (updateFirst sid f store) sid' =
      if sid' = sid then (find_one store sid).map f else find_one store sid' := by
  induction store with
  | nil => simp [find_one, updateFirst, List.find?]
  | cons a as ih =>
      by_cases hmatch : a.session_id == sid
      · have ha : a.session_id = sid := by simpa using hmatch
        by_cases hs : sid' = sid
        · subst hs
          simp [find_one, updateFirst, List.find?, hmatch, hf, ha]
        · have : ¬ ((f a).session_id == sid') := by simp [hf, ha, Ne.symm hs]
          have ha' : ¬ (a.session_id == sid') := by simp [ha, Ne.symm hs]
          simp [find_one, updateFirst, List.find?, hmatch, this, ha', hs]
      · by_cases hs : sid' = sid
        · subst hs
          simp only [Bool.not_eq_true] at hmatch
          simpa [find_one, updateFirst, List.find?, hmatch] using ih
        · by_cases ha' : a.session_id == sid'
          · simp [find_one, updateFirst, List.find?, hmatch, ha', hs]
          · simp only [Bool.not_eq_true] at hmatch ha'
            simpa [find_one, updateFirst, List.find?, hmatch, ha', hs] using ih

theorem countSessions_append (store : Store) (d : ChatDoc) (sid : String) :
    countSessions (store ++ [d]) sid =
      countSessions store sid + (if d.session_id == sid then 1 else 0) := by
  unfold countSessions
  rw [List.countP_append]
  by_cases h : d.session_id = sid
  · simp [h]
  · have hb : (d.session_id == sid) = false := beq_eq_false_iff_ne.mpr h
    simp [hb, List.countP_cons]

theorem countSessions_eq_zero (store : Store) (sid : String)
    (h : find_one store sid = none) : countSessions store sid = 0 := by
  induction store with
  | nil => simp [countSessions]
  | cons a as ih =>
      by_cases ha : a.session_id == sid
      · simp [find_one, List.find?, ha] at h
      · have hfa : find_one as sid = none := by
          simp only [Bool.not_eq_true] at ha
          simpa [find_one, List.find?, ha] using h
        have := ih hfa
        simp only [Bool.not_eq_true] at ha
        simp [countSessions, List.countP_cons, ha] at this ⊢
        exact this

theorem countSessions_updateFirst (sid sid' : String) (f : ChatDoc → ChatDoc)
    (hf : ∀ d, (f d).session_id = d.session_id) (store : Store) :
    countSessions (updateFirst sid f store) sid' = countSessions store sid' := by
  induction store with
  | nil => simp [updateFirst]
  | cons a as ih =>
      by_cases ha : a.session_id == sid
      · simp [updateFirst, ha, countSessions, List.countP_cons, hf]
      · simp only [Bool.not_eq_true] at ha
        simp only [updateFirst, ha, Bool.false_eq_true, if_false]
        simpa [countSessions, List.countP_cons] using ih

theorem length_updateFirst (sid : String) (f : ChatDoc → ChatDoc) (store : Store) :
    (updateFirst sid f store).length = store.length := by
  induction store with
  | nil => rfl
  | cons a as ih =>
      by_cases ha : a.session_id == sid
      · simp [updateFirst, ha]
      · simp only [Bool.not_eq_true] at ha
        simp [updateFirst, ha, ih]

/-! ## get_or_create lemmas -/

theorem get_or_create_absent (store : Store) (sid : String)
    (rinfo : Option RecruiterInfo) (t1 : Nat) (h : find_one store sid = none) :
    get_or_create store sid rinfo t1 =
      ({ session_id := sid, messages := [], recruiter_info := rinfo,
         created_at := t1, updated_at := none },
       store ++ [{ session_id := sid, messages := [], recruiter_info := rinfo,
                   created_at := t1, updated_at := none }]) := by
  simp [get_or_create, h, insert_one]

theorem get_or_create_present (store : Store) (sid : String)
    (rinfo : Option RecruiterInfo) (t1 : Nat) (d : ChatDoc)
    (h : find_one store sid = some d) : get_or_create store sid rinfo t1 = (d, store) := by
  simp [get_or_create, h]

/-- After get_or_create, the session is present and its document is the one
returned. -/
theorem find_one_get_or_create (store : Store) (sid : String)
    (rinfo : Option RecruiterInfo) (t1 : Nat) :
    find_one (get_or_create store sid rinfo t1).2 sid
      = some (get_or_create store sid rinfo t1).1 := by
  cases h : find_one store sid with
  | some d => simp [get_or_create_present store sid rinfo t1 d h, h]
  | none =>
      rw [get_or_create_absent store sid rinfo t1 h]
      rw [find_one_append, h]
      simp

/-- The document get_or_create hands to the rest of the call holds exactly
the stored turn sequence of the session. -/
theorem get_or_create_messages (store : Store) (sid : String)
    (rinfo : Option RecruiterInfo) (t1 : Nat) :
    (get_or_create store sid rinfo t1).1.messages = storedMessages store sid := by
  cases h : find_one store sid with
  | some d => simp [get_or_create_present store sid rinfo t1 d h, storedMessages, h]
  | none => simp [get_or_create_absent store sid rinfo t1 h, storedMessages, h]

/-- get_or_create changes no stored turn sequence: the created document is
empty, and an existing store is untouched. -/
theorem storedMessages_get_or_create (store : Store) (sid sid' : String)
    (rinfo : Option RecruiterInfo) (t1 : Nat) :
    storedMessages (get_or_create store sid rinfo t1).2 sid' = storedMessages store sid' := by
  cases h : find_one store sid with
  | some d => rw [get_or_create_present store sid rinfo t1 d h]
  | none =>
      rw [get_or_create_absent store sid rinfo t1 h]
      unfold storedMessages
      rw [find_one_append]
      cases h' : find_one store sid' with
      | some x => simp
      | none =>
          by_cases hs : sid = sid'
          · subst hs
            rw [h] at h'
            simp
          · have : (sid == sid') = false := beq_eq_false_iff_ne.mpr hs
            simp [this]

/-! ## update_one_push lemmas -/

theorem find_one_update_one_push (store : Store) (sid : String)
    (turns : List StoredMessage) (t4 : Nat) :
    find_one (update_one_push store sid turns t4) sid
      = (find_one store sid).map
          (fun d => { d with messages := d.messages ++ turns, updated_at := some t4 }) := by
  unfold update_one_push
  rw [find_one_updateFirst sid sid
      (fun d => { d with messages := d.messages ++ turns, updated_at := some t4 })
      (fun d => rfl) store]
  simp

theorem find_one_update_one_push_other (store : Store) (sid sid' : String)
    (turns : List StoredMessage) (t4 : Nat) (h : sid' ≠ sid) :
    find_one (update_one_push store sid turns t4) sid' = find_one store sid' := by
  unfold update_one_push
  rw [find_one_updateFirst sid sid'
      (fun d => { d with messages := d.messages ++ turns, updated_at := some t4 })
      (fun d => rfl) store]
  simp [h]

theorem storedMessages_update_one_push (store : Store) (sid : String)
    (turns : List StoredMessage) (t4 : Nat) (d : ChatDoc)
    (h : find_one store sid = some d) :
    storedMessages (update_one_push store sid turns t4) sid
      = storedMessages store sid ++ turns := by
  unfold storedMessages
  rw [find_one_update_one_push, h]
  simp

/-! ## Endpoint characterization lemmas -/

theorem chat_endpoint_of_ok (apiKey : Option String) (net : List ApiMessage → NetOutcome)
    (t1 t2 t3 t4 : Nat) (req : ChatRequest) (store : Store) (ai : String)
    (h : (get_chat_response apiKey net
            (messagesForAi (get_or_create store req.session_id req.recruiter_info t1).1
              req.message)).result = .ok ai) :
    chat_endpoint apiKey net t1 t2 t3 t4 req store =
      { result := .ok { response := ai, session_id := req.session_id },
        store := update_one_push
          (get_or_create store req.session_id req.recruiter_info t1).2 req.session_id
          [ { role := "user", content := req.message, timestamp := t2 },
            { role := "assistant", content := ai, timestamp := t3 } ] t4,
        sent := (get_chat_response apiKey net
          (messagesForAi (get_or_create store req.session_id req.recruiter_info t1).1
            req.message)).sent } := by
  simp only [chat_endpoint, h]

theorem chat_endpoint_of_error (apiKey : Option String) (net : List ApiMessage → NetOutcome)
    (t1 t2 t3 t4 : Nat) (req : ChatRequest) (store : Store) (e : HTTPError)
    (h : (get_chat_response apiKey net
            (messagesForAi (get_or_create store req.session_id req.recruiter_info t1).1
              req.message)).result = .error e) :
    chat_endpoint apiKey net t1 t2 t3 t4 req store =
      { result := .error
          { status_code := 500, detail := "Error processing chat: " ++ e.str },
        store := (get_or_create store req.session_id req.recruiter_info t1).2,
        sent := (get_chat_response apiKey net
          (messagesForAi (get_or_create store req.session_id req.recruiter_info t1).1
            req.message)).sent } := by
  simp only [chat_endpoint, h]

theorem chat_endpoint_sent (apiKey : Option String) (net : List ApiMessage → NetOutcome)
    (t1 t2 t3 t4 : Nat) (req : ChatRequest) (store : Store) :
    (chat_endpoint apiKey net t1 t2 t3 t4 req store).sent
      = (get_chat_response apiKey net
          (messagesForAi (get_or_create store req.session_id req.recruiter_info t1).1
            req.message)).sent := by
  simp only [chat_endpoint]
  split <;> rfl

/-- Every request get_chat_response actually issues carries the system
prompt first and then exactly the messages it was given. -/
theorem get_chat_response_sent_shape (apiKey : Option String)
    (net : List ApiMessage → NetOutcome) (msgs : List ApiMessage) (ms : List ApiMessage)
    (h : (get_chat_response apiKey net msgs).sent = [ms]) :
    ms = { role := "system", content := CANDIDATE_INFO, timestamp := none } :: msgs := by
  unfold get_chat_response at h
  by_cases hk : apiKeyFalsy apiKey
  · simp [hk] at h
  · simp only [hk, Bool.false_eq_true, if_false] at h
    cases hnet : net ({ role := "system", content := CANDIDATE_INFO, timestamp := none } :: msgs) with
    | response r =>
        rw [hnet] at h
        by_cases hs : r.status_code == 200
        · simp only [hs, if_true] at h
          injection h with h1 _
          exact h1.symm
        · simp only [hs, Bool.false_eq_true, if_false] at h
          injection h with h1 _
          exact h1.symm
    | timeout =>
        rw [hnet] at h
        injection h with h1 _
        exact h1.symm
    | exn m =>
        rw [hnet] at h
        injection h with h1 _
        exact h1.symm

/-! ## Context window lemmas -/

theorem contextWindow_eq_drop (msgs : List StoredMessage) :
    contextWindow msgs = msgs.drop (msgs.length - 10) := by
  unfold contextWindow
  cases msgs with
  | nil => simp
  | cons a as => simp

theorem contextWindow_length_le (msgs : List StoredMessage) :
    (contextWindow msgs).length ≤ 10 := by
  rw [contextWindow_eq_drop, List.length_drop]
  omega

theorem contextWindow_suffix (msgs : List StoredMessage) :
    contextWindow msgs <:+ msgs := by
  rw [contextWindow_eq_drop]
  exact List.drop_suffix _ _

theorem contextWindow_of_short (msgs : List StoredMessage) (h : msgs.length ≤ 10) :
    contextWindow msgs = msgs := by
  rw [contextWindow_eq_drop]
  have : msgs.length - 10 = 0 := by omega
  rw [this, List.drop_zero]

theorem contextWindow_length_of_long (msgs : List StoredMessage) (h : 10 ≤ msgs.length) :
    (contextWindow msgs).length = 10 := by
  rw [contextWindow_eq_drop, List.length_drop]
  omega

/-! ## Single-call effect lemmas -/

/-- A successful chat call appends exactly the user turn then the assistant
turn to its session. -/
theorem chat_endpoint_ok_messages (apiKey : Option String)
    (net : List ApiMessage → NetOutcome) (t1 t2 t3 t4 : Nat) (req : ChatRequest)
    (store : Store) (resp : ChatResponse)
    (h : (chat_endpoint apiKey net t1 t2 t3 t4 req store).result = .ok resp) :
    storedMessages (chat_endpoint apiKey net t1 t2 t3 t4 req store).store req.session_id
      = storedMessages store req.session_id
        ++ [ { role := "user", content := req.message, timestamp := t2 },
             { role := "assistant", content := resp.response, timestamp := t3 } ] := by
  cases hr : (get_chat_response apiKey net
      (messagesForAi (get_or_create store req.session_id req.recruiter_info t1).1
        req.message)).result with
  | error e =>
      rw [chat_endpoint_of_error apiKey net t1 t2 t3 t4 req store e hr] at h
      simp at h
  | ok ai =>
      rw [chat_endpoint_of_ok apiKey net t1 t2 t3 t4 req store ai hr] at h ⊢
      simp only [Except.ok.injEq] at h
      subst h
      rw [storedMessages_update_one_push _ _ _ _
            (get_or_create store req.session_id req.recruiter_info t1).1
            (find_one_get_or_create store req.session_id req.recruiter_info t1),
          storedMessages_get_or_create]

/-- A failed chat call leaves every stored turn sequence unchanged. -/
theorem chat_endpoint_error_messages (apiKey : Option String)
    (net : List ApiMessage → NetOutcome) (t1 t2 t3 t4 : Nat) (req : ChatRequest)
    (store : Store) (e : HTTPError)
    (h : (chat_endpoint apiKey net t1 t2 t3 t4 req store).result = .error e) :
    ∀ sid', storedMessages (chat_endpoint apiKey net t1 t2 t3 t4 req store).store sid'
      = storedMessages store sid' := by
  intro sid'
  cases hr : (get_chat_response apiKey net
      (messagesForAi (get_or_create store req.session_id req.recruiter_info t1).1
        req.message)).result with
  | ok ai =>
      rw [chat_endpoint_of_ok apiKey net t1 t2 t3 t4 req store ai hr] at h
      simp at h
  | error e0 =>
      rw [chat_endpoint_of_error apiKey net t1 t2 t3 t4 req store e0 hr]
      exact storedMessages_get_or_create store req.session_id sid' req.recruiter_info t1

/-! ## Multi-call lemmas -/

theorem runChats_results_length (apiKey : Option String)
    (net : List ApiMessage → NetOutcome) (calls : List CallInput) (store : Store) :
    (runChats apiKey net calls store).2.length = calls.length := by
  induction calls generalizing store with
  | nil => rfl
  | cons c cs ih => simp [runChats, ih]

theorem pairsOf_nil (results : List (Except HTTPError ChatResponse)) :
    pairsOf [] results = [] := by
  simp [pairsOf]

theorem pairsOf_cons (c : CallInput) (calls : List CallInput)
    (r : Except HTTPError ChatResponse) (results : List (Except HTTPError ChatResponse)) :
    pairsOf (c :: calls) (r :: results)
      = [ { role := "user", content := c.req.message, timestamp := c.t2 },
          { role := "assistant", content := okContent r, timestamp := c.t3 } ]
        ++ pairsOf calls results := by
  simp [pairsOf]

theorem userAssistantPairs_append : ∀ (xs ys : List StoredMessage),
    userAssistantPairs xs = true → userAssistantPairs ys = true →
    userAssistantPairs (xs ++ ys) = true
  | [], ys, _, hy => by simpa using hy
  | u :: a :: rest, ys, hx, hy => by
      simp only [userAssistantPairs, Bool.and_eq_true] at hx
      simp only [List.cons_append, userAssistantPairs, Bool.and_eq_true]
      exact ⟨hx.1, userAssistantPairs_append rest ys hx.2 hy⟩
  | [_], ys, hx, hy => by simp [userAssistantPairs] at hx

theorem userAssistantPairs_pairsOf (calls : List CallInput)
    (results : List (Except HTTPError ChatResponse)) :
    userAssistantPairs (pairsOf calls results) = true := by
  induction calls generalizing results with
  | nil => simp [pairsOf, userAssistantPairs]
  | cons c cs ih =>
      cases results with
      | nil => simp [pairsOf, userAssistantPairs]
      | cons r rs =>
          rw [pairsOf_cons]
          exact userAssistantPairs_append _ _ (by simp [userAssistantPairs]) (ih rs)

theorem pairsOf_length (calls : List CallInput)
    (results : List (Except HTTPError ChatResponse)) (h : calls.length ≤ results.length) :
    (pairsOf calls results).length = 2 * calls.length := by
  induction calls generalizing results with
  | nil => simp [pairsOf]
  | cons c cs ih =>
      cases results with
      | nil => simp at h
      | cons r rs =>
          have hlen := ih rs (by simpa using h)
          rw [pairsOf_cons, List.length_append, hlen]
          simp only [List.length_cons, List.length_nil]
          omega

/-- Running successful calls, all on one session, appends exactly the
user/assistant pair of each call, in call order. -/
theorem runChats_messages_append (apiKey : Option String)
    (net : List ApiMessage → NetOutcome) (sid : String) (calls : List CallInput)
    (store : Store) (hsid : ∀ c ∈ calls, c.req.session_id = sid)
    (hok : ((runChats apiKey net calls store).2.all resultOk) = true) :
    storedMessages (runChats apiKey net calls store).1 sid
      = storedMessages store sid ++ pairsOf calls (runChats apiKey net calls store).2 := by
  induction calls generalizing store with
  | nil => simp [runChats, pairsOf]
  | cons c cs ih =>
      simp only [runChats] at hok ⊢
      simp only [List.all_cons, Bool.and_eq_true] at hok
      cases hres : (chat_endpoint apiKey net c.t1 c.t2 c.t3 c.t4 c.req store).result with
      | error e =>
          rw [hres] at hok
          simp [resultOk] at hok
      | ok resp =>
          have hc : c.req.session_id = sid := hsid c (List.mem_cons_self c cs)
          have hstep := chat_endpoint_ok_messages apiKey net c.t1 c.t2 c.t3 c.t4 c.req
            store resp hres
          rw [hc] at hstep
          have hrest := ih (chat_endpoint apiKey net c.t1 c.t2 c.t3 c.t4 c.req store).store
            (fun x hx => hsid x (List.mem_cons_of_mem c hx)) hok.2
          rw [pairsOf_cons]
          simp only [okContent]
          rw [hrest, hstep]
          simp

/-! ## Concrete fixtures -/

/-- A provider that always answers 200 with a fixed completion. -/
def netOkW : List ApiMessage → NetOutcome :=
  fun _ => .response
    { status_code := 200,
      firstChoiceContent := "I have 5 years of Python experience.", text := "" }

/-- A provider call that always times out. -/
def netTimeoutW : List ApiMessage → NetOutcome := fun _ => .timeout

/-- The example request of the spec. -/
def reqW : ChatRequest :=
  { message := "Tell me about your Python experience", session_id := "s1",
    recruiter_info := none }

/-- A short follow-up request on session s1. -/
def reqHiW : ChatRequest :=
  { message := "hi", session_id := "s1", recruiter_info := none }

/-- A store holding session s1 with one prior stored turn. -/
def storeOneW : Store :=
  [{ session_id := "s1",
     messages := [{ role := "user", content := "earlier", timestamp := 5 }],
     recruiter_info := none, created_at := 0, updated_at := none }]

/-- Twelve stored turns. -/
def msgs12W : List StoredMessage :=
  (List.range 12).map (fun i => { role := "user", content := toString i, timestamp := i })

/-- A store holding session s1 with twelve stored turns. -/
def store12W : Store :=
  [{ session_id := "s1", messages := msgs12W, recruiter_info := none,
     created_at := 0, updated_at := none }]

/-! ## Claims -/

/-- C1: for every chat call on which the LLM client invocation fails (for any
reason: missing credential, timeout, or non-success provider status), no
turns are appended to the stored message sequence of any session for that
call: the stored turn count and content are unchanged, so the user message
alone is never persisted without the assistant reply. -/
theorem chat_llm_failure_appends_no_turns (apiKey : Option String)
    (net : List ApiMessage → NetOutcome) (t1 t2 t3 t4 : Nat) (req : ChatRequest)
    (store : Store) (e : HTTPError)
    (h : (chat_endpoint apiKey net t1 t2 t3 t4 req store).result = .error e) :
    ∀ sid, storedMessages (chat_endpoint apiKey net t1 t2 t3 t4 req store).store sid
      = storedMessages store sid :=
  chat_endpoint_error_messages apiKey net t1 t2 t3 t4 req store e h

theorem chat_llm_failure_appends_no_turns_witness :
    (chat_endpoint (some "k") netTimeoutW 1 2 3 4 reqW storeOneW).result
        = .error { status_code := 500,
                   detail := "Error processing chat: 504: Request timeout" }
    ∧ ∀ sid,
        storedMessages (chat_endpoint (some "k") netTimeoutW 1 2 3 4 reqW storeOneW).store sid
          = storedMessages storeOneW sid :=
  ⟨rfl, chat_llm_failure_appends_no_turns (some "k") netTimeoutW 1 2 3 4 reqW storeOneW
    { status_code := 500, detail := "Error processing chat: 504: Request timeout" } rfl⟩

/-- C4: every failure of a chat call surfaces as status 500 with a
descriptive detail; no chat-call failure carries any other status code,
while the health endpoint surfaces a store-ping failure as 503. -/
theorem chat_failures_surface_as_500_health_as_503 :
    (∀ (apiKey : Option String) (net : List ApiMessage → NetOutcome)
        (t1 t2 t3 t4 : Nat) (req : ChatRequest) (store : Store) (e : HTTPError),
        (chat_endpoint apiKey net t1 t2 t3 t4 req store).result = .error e →
        e.status_code = 500)
    ∧ (∀ (ping : Option String) (now : Nat) (e : HTTPError),
        health_check ping now = .error e → e.status_code = 503) := by
  constructor
  · intro apiKey net t1 t2 t3 t4 req store e h
    cases hr : (get_chat_response apiKey net
        (messagesForAi (get_or_create store req.session_id req.recruiter_info t1).1
          req.message)).result with
    | ok ai =>
        rw [chat_endpoint_of_ok apiKey net t1 t2 t3 t4 req store ai hr] at h
        simp at h
    | error e0 =>
        rw [chat_endpoint_of_error apiKey net t1 t2 t3 t4 req store e0 hr] at h
        simp only [Except.error.injEq] at h
        rw [← h]
  · intro ping now e h
    cases ping with
    | none => simp [health_check] at h
    | some m =>
        simp only [health_check, Except.error.injEq] at h
        rw [← h]

theorem chat_failures_surface_as_500_health_as_503_witness :
    ((chat_endpoint none netOkW 1 2 3 4 reqW []).result
        = .error { status_code := 500,
                   detail := "Error processing chat: 500: Groq API key not configured" })
    ∧ ({ status_code := 500,
         detail := "Error processing chat: 500: Groq API key not configured" }
          : HTTPError).status_code = 500
    ∧ (health_check (some "boom") 7
        = .error { status_code := 503, detail := "Database connection failed: boom" })
    ∧ ({ status_code := 503, detail := "Database connection failed: boom" }
          : HTTPError).status_code = 503 :=
  ⟨rfl,
   chat_failures_surface_as_500_health_as_503.1 none netOkW 1 2 3 4 reqW []
     { status_code := 500,
       detail := "Error processing chat: 500: Groq API key not configured" } rfl,
   rfl,
   chat_failures_surface_as_500_health_as_503.2 (some "boom") 7
     { status_code := 503, detail := "Database connection failed: boom" } rfl⟩

/-- C5: with no API credential configured (unset or empty), the chat call
fails with the configuration error and, since the credential check runs
before the network call, no outbound request to the provider is issued at
all, both at the client level and at the endpoint level. -/
theorem missing_api_key_fails_without_network_call (apiKey : Option String)
    (net : List ApiMessage → NetOutcome) (t1 t2 t3 t4 : Nat) (req : ChatRequest)
    (store : Store) (msgs : List ApiMessage) (hk : apiKeyFalsy apiKey = true) :
    (get_chat_response apiKey net msgs).sent = []
    ∧ (get_chat_response apiKey net msgs).result
        = .error { status_code := 500, detail := "Groq API key not configured" }
    ∧ (chat_endpoint apiKey net t1 t2 t3 t4 req store).sent = []
    ∧ (chat_endpoint apiKey net t1 t2 t3 t4 req store).result
        = .error { status_code := 500,
                   detail := "Error processing chat: 500: Groq API key not configured" } := by
  have hg : ∀ ms : List ApiMessage, get_chat_response apiKey net ms =
      { result := .error { status_code := 500, detail := "Groq API key not configured" },
        sent := [] } := by
    intro ms
    unfold get_chat_response
    simp [hk]
  refine ⟨by rw [hg], by rw [hg], ?_, ?_⟩
  · rw [chat_endpoint_sent, hg]
  · rw [chat_endpoint_of_error apiKey net t1 t2 t3 t4 req store
        { status_code := 500, detail := "Groq API key not configured" } (by rw [hg])]
    rfl

theorem missing_api_key_fails_without_network_call_witness :
    apiKeyFalsy none = true
    ∧ ((get_chat_response none netOkW []).sent = []
        ∧ (get_chat_response none netOkW []).result
            = .error { status_code := 500, detail := "Groq API key not configured" }
        ∧ (chat_endpoint none netOkW 1 2 3 4 reqW []).sent = []
        ∧ (chat_endpoint none netOkW 1 2 3 4 reqW []).result
            = .error { status_code := 500,
                       detail := "Error processing chat: 500: Groq API key not configured" }) :=
  ⟨rfl, missing_api_key_fails_without_network_call none netOkW 1 2 3 4 reqW [] [] rfl⟩

/-- C10: a successful chat call echoes the session_id of the request
unchanged in its response. -/
theorem response_echoes_request_session_id (apiKey : Option String)
    (net : List ApiMessage → NetOutcome) (t1 t2 t3 t4 : Nat) (req : ChatRequest)
    (store : Store) (resp : ChatResponse)
    (h : (chat_endpoint apiKey net t1 t2 t3 t4 req store).result = .ok resp) :
    resp.session_id = req.session_id := by
  cases hr : (get_chat_response apiKey net
      (messagesForAi (get_or_create store req.session_id req.recruiter_info t1).1
        req.message)).result with
  | error e =>
      rw [chat_endpoint_of_error apiKey net t1 t2 t3 t4 req store e hr] at h
      simp at h
  | ok ai =>
      rw [chat_endpoint_of_ok apiKey net t1 t2 t3 t4 req store ai hr] at h
      simp only [Except.ok.injEq] at h
      rw [← h]

theorem response_echoes_request_session_id_witness :
    ((chat_endpoint (some "k") netOkW 1 2 3 4 reqW []).result
        = .ok { response := "I have 5 years of Python experience.", session_id := "s1" })
    ∧ ({ response := "I have 5 years of Python experience.", session_id := "s1" }
          : ChatResponse).session_id = reqW.session_id :=
  ⟨rfl, response_echoes_request_session_id (some "k") netOkW 1 2 3 4 reqW []
    { response := "I have 5 years of Python experience.", session_id := "s1" } rfl⟩

/-- The chat endpoint never inserts a second document for a session: its
store post-state has the same per-session document counts as the
get-or-create post-state. -/
theorem countSessions_chat_endpoint (apiKey : Option String)
    (net : List ApiMessage → NetOutcome) (t1 t2 t3 t4 : Nat) (req : ChatRequest)
    (store : Store) (sid' : String) :
    countSessions (chat_endpoint apiKey net t1 t2 t3 t4 req store).store sid'
      = countSessions (get_or_create store req.session_id req.recruiter_info t1).2 sid' := by
  cases hr : (get_chat_response apiKey net
      (messagesForAi (get_or_create store req.session_id req.recruiter_info t1).1
        req.message)).result with
  | ok ai =>
      rw [chat_endpoint_of_ok apiKey net t1 t2 t3 t4 req store ai hr]
      exact countSessions_updateFirst req.session_id sid'
        (fun d => { d with
          messages := d.messages ++
            [ { role := "user", content := req.message, timestamp := t2 },
              { role := "assistant", content := ai, timestamp := t3 } ],
          updated_at := some t4 })
        (fun d => rfl) _
  | error e =>
      rw [chat_endpoint_of_error apiKey net t1 t2 t3 t4 req store e hr]

theorem length_chat_endpoint (apiKey : Option String)
    (net : List ApiMessage → NetOutcome) (t1 t2 t3 t4 : Nat) (req : ChatRequest)
    (store : Store) :
    (chat_endpoint apiKey net t1 t2 t3 t4 req store).store.length
      = (get_or_create store req.session_id req.recruiter_info t1).2.length := by
  cases hr : (get_chat_response apiKey net
      (messagesForAi (get_or_create store req.session_id req.recruiter_info t1).1
        req.message)).result with
  | ok ai =>
      rw [chat_endpoint_of_ok apiKey net t1 t2 t3 t4 req store ai hr]
      exact length_updateFirst req.session_id _ _
  | error e =>
      rw [chat_endpoint_of_error apiKey net t1 t2 t3 t4 req store e hr]

/-- C2: the context history handed to the LLM client is exactly the last 10
stored turns of the session in their original stored order (a suffix of
the stored sequence), all stored turns when fewer than 10 exist, and never
more than 10 even when the session holds more. -/
theorem context_window_is_last_ten_stored_turns (apiKey : Option String)
    (net : List ApiMessage → NetOutcome) (t1 t2 t3 t4 : Nat) (req : ChatRequest)
    (store : Store) (ms : List ApiMessage)
    (h : (chat_endpoint apiKey net t1 t2 t3 t4 req store).sent = [ms]) :
    ms = { role := "system", content := CANDIDATE_INFO, timestamp := none }
          :: ((contextWindow (storedMessages store req.session_id)).map StoredMessage.toApi
              ++ [{ role := "user", content := req.message, timestamp := none }])
    ∧ contextWindow (storedMessages store req.session_id)
        = (storedMessages store req.session_id).drop
            ((storedMessages store req.session_id).length - 10)
    ∧ (contextWindow (storedMessages store req.session_id)).length ≤ 10
    ∧ contextWindow (storedMessages store req.session_id)
        <:+ storedMessages store req.session_id
    ∧ ((storedMessages store req.session_id).length ≤ 10 →
        contextWindow (storedMessages store req.session_id)
          = storedMessages store req.session_id)
    ∧ (10 ≤ (storedMessages store req.session_id).length →
        (contextWindow (storedMessages store req.session_id)).length = 10) := by
  have hms : ms = { role := "system", content := CANDIDATE_INFO, timestamp := none }
      :: messagesForAi (get_or_create store req.session_id req.recruiter_info t1).1
           req.message := by
    apply get_chat_response_sent_shape apiKey net _ ms
    rw [← chat_endpoint_sent apiKey net t1 t2 t3 t4 req store]
    exact h
  refine ⟨?_, contextWindow_eq_drop _, contextWindow_length_le _, contextWindow_suffix _,
    contextWindow_of_short _, contextWindow_length_of_long _⟩
  rw [hms]
  unfold messagesForAi
  rw [get_or_create_messages]

/-- The exact provider payload of the C2 witness call: system prompt, the
last ten of the twelve stored turns, the new user message. -/
def msW12 : List ApiMessage :=
  { role := "system", content := CANDIDATE_INFO, timestamp := none }
    :: ((msgs12W.drop 2).map StoredMessage.toApi
        ++ [{ role := "user", content := reqW.message, timestamp := none }])

theorem context_window_is_last_ten_stored_turns_witness :
    ((chat_endpoint (some "k") netOkW 1 2 3 4 reqW store12W).sent = [msW12])
    ∧ msW12 = { role := "system", content := CANDIDATE_INFO, timestamp := none }
        :: ((contextWindow (storedMessages store12W "s1")).map StoredMessage.toApi
            ++ [{ role := "user", content := reqW.message, timestamp := none }])
    ∧ (contextWindow (storedMessages store12W "s1")).length = 10 :=
  ⟨rfl,
   (context_window_is_last_ten_stored_turns (some "k") netOkW 1 2 3 4 reqW store12W
     msW12 rfl).1,
   (context_window_is_last_ten_stored_turns (some "k") netOkW 1 2 3 4 reqW store12W
     msW12 rfl).2.2.2.2.2 (by decide)⟩

/-- C6: the first chat call on an absent session_id creates exactly one
session record, with an empty message sequence and the supplied recruiter
metadata (None models the empty default), before the call completes; a chat
call on a present session_id creates no new record. -/
theorem first_call_creates_single_session_record :
    (∀ (store : Store) (sid : String) (rinfo : Option RecruiterInfo) (t1 : Nat),
        find_one store sid = none →
        get_or_create store sid rinfo t1
          = ({ session_id := sid, messages := [], recruiter_info := rinfo,
               created_at := t1, updated_at := none },
             store ++ [{ session_id := sid, messages := [], recruiter_info := rinfo,
                         created_at := t1, updated_at := none }]))
    ∧ (∀ (store : Store) (sid : String) (rinfo : Option RecruiterInfo) (t1 : Nat)
        (d : ChatDoc),
        find_one store sid = some d → get_or_create store sid rinfo t1 = (d, store))
    ∧ (∀ (apiKey : Option String) (net : List ApiMessage → NetOutcome)
        (t1 t2 t3 t4 : Nat) (req : ChatRequest) (store : Store),
        find_one store req.session_id = none →
        countSessions (chat_endpoint apiKey net t1 t2 t3 t4 req store).store
          req.session_id = 1)
    ∧ (∀ (apiKey : Option String) (net : List ApiMessage → NetOutcome)
        (t1 t2 t3 t4 : Nat) (req : ChatRequest) (store : Store) (d : ChatDoc),
        find_one store req.session_id = some d →
        countSessions (chat_endpoint apiKey net t1 t2 t3 t4 req store).store req.session_id
            = countSessions store req.session_id
        ∧ (chat_endpoint apiKey net t1 t2 t3 t4 req store).store.length = store.length) := by
  refine ⟨get_or_create_absent, get_or_create_present, ?_, ?_⟩
  · intro apiKey net t1 t2 t3 t4 req store h
    rw [countSessions_chat_endpoint, get_or_create_absent store req.session_id
        req.recruiter_info t1 h]
    rw [countSessions_append, countSessions_eq_zero store req.session_id h]
    simp
  · intro apiKey net t1 t2 t3 t4 req store d h
    constructor
    · rw [countSessions_chat_endpoint, get_or_create_present store req.session_id
          req.recruiter_info t1 d h]
    · rw [length_chat_endpoint, get_or_create_present store req.session_id
          req.recruiter_info t1 d h]

theorem first_call_creates_single_session_record_witness :
    (find_one [] "s1" = none)
    ∧ get_or_create [] "s1" none 1
        = ({ session_id := "s1", messages := [], recruiter_info := none,
             created_at := 1, updated_at := none },
           [{ session_id := "s1", messages := [], recruiter_info := none,
              created_at := 1, updated_at := none }])
    ∧ countSessions (chat_endpoint (some "k") netOkW 1 2 3 4 reqW []).store "s1" = 1
    ∧ countSessions (chat_endpoint (some "k") netOkW 1 2 3 4 reqHiW storeOneW).store "s1"
        = countSessions storeOneW "s1" :=
  ⟨rfl,
   first_call_creates_single_session_record.1 [] "s1" none 1 rfl,
   first_call_creates_single_session_record.2.2.1 (some "k") netOkW 1 2 3 4 reqW [] rfl,
   (first_call_creates_single_session_record.2.2.2 (some "k") netOkW 1 2 3 4 reqHiW
     storeOneW { session_id := "s1",
                 messages := [{ role := "user", content := "earlier", timestamp := 5 }],
                 recruiter_info := none, created_at := 0, updated_at := none } rfl).1⟩

/-- C9: recruiter_info is recorded only at session creation: a chat call on
an already-present session leaves the stored recruiter_info unchanged, even
when the request supplies one, and likewise leaves session_id and
created_at unchanged (only messages and updated_at can change). -/
theorem recruiter_info_create_only (apiKey : Option String)
    (net : List ApiMessage → NetOutcome) (t1 t2 t3 t4 : Nat) (req : ChatRequest)
    (store : Store) (d : ChatDoc) (h : find_one store req.session_id = some d) :
    ∃ d', find_one (chat_endpoint apiKey net t1 t2 t3 t4 req store).store
            req.session_id = some d'
      ∧ d'.session_id = d.session_id
      ∧ d'.recruiter_info = d.recruiter_info
      ∧ d'.created_at = d.created_at := by
  cases hr : (get_chat_response apiKey net
      (messagesForAi (get_or_create store req.session_id req.recruiter_info t1).1
        req.message)).result with
  | error e =>
      rw [chat_endpoint_of_error apiKey net t1 t2 t3 t4 req store e hr,
          get_or_create_present store req.session_id req.recruiter_info t1 d h]
      exact ⟨d, h, rfl, rfl, rfl⟩
  | ok ai =>
      rw [chat_endpoint_of_ok apiKey net t1 t2 t3 t4 req store ai hr,
          get_or_create_present store req.session_id req.recruiter_info t1 d h]
      have hf := find_one_update_one_push store req.session_id
        [ { role := "user", content := req.message, timestamp := t2 },
          { role := "assistant", content := ai, timestamp := t3 } ] t4
      rw [h] at hf
      simp only [Option.map_some'] at hf
      exact ⟨_, hf, rfl, rfl, rfl⟩

/-- A follow-up request on s1 that supplies recruiter metadata. -/
def reqRIW : ChatRequest :=
  { message := "hi", session_id := "s1",
    recruiter_info := some { company := some "Acme", email := none, name := none } }

theorem recruiter_info_create_only_witness :
    (find_one storeOneW "s1"
        = some { session_id := "s1",
                 messages := [{ role := "user", content := "earlier", timestamp := 5 }],
                 recruiter_info := none, created_at := 0, updated_at := none })
    ∧ ∃ d', find_one (chat_endpoint (some "k") netOkW 1 2 3 4 reqRIW storeOneW).store "s1"
          = some d'
        ∧ d'.session_id = "s1" ∧ d'.recruiter_info = none ∧ d'.created_at = 0 :=
  ⟨rfl, recruiter_info_create_only (some "k") netOkW 1 2 3 4 reqRIW storeOneW
    { session_id := "s1",
      messages := [{ role := "user", content := "earlier", timestamp := 5 }],
      recruiter_info := none, created_at := 0, updated_at := none } rfl⟩

/-- C3: starting with the session absent, after N successful sequential chat
calls on it the stored message sequence is exactly the 2N turns the calls
appended, in call order, keeping the user turn before the assistant turn
within each pair, with each user turn holding the request message of its
call and each assistant turn the content that call returned. -/
theorem successful_calls_store_alternating_pairs (apiKey : Option String)
    (net : List ApiMessage → NetOutcome) (sid : String) (calls : List CallInput)
    (store : Store) (h0 : find_one store sid = none)
    (hsid : ∀ c ∈ calls, c.req.session_id = sid)
    (hok : ((runChats apiKey net calls store).2.all resultOk) = true) :
    storedMessages (runChats apiKey net calls store).1 sid
        = pairsOf calls (runChats apiKey net calls store).2
    ∧ (storedMessages (runChats apiKey net calls store).1 sid).length = 2 * calls.length
    ∧ userAssistantPairs (storedMessages (runChats apiKey net calls store).1 sid)
        = true := by
  have hemp : storedMessages store sid = [] := by
    unfold storedMessages
    rw [h0]
  have happ := runChats_messages_append apiKey net sid calls store hsid hok
  rw [hemp] at happ
  simp only [List.nil_append] at happ
  refine ⟨happ, ?_, ?_⟩
  · rw [happ]
    exact pairsOf_length calls _ (runChats_results_length apiKey net calls store).symm.le
  · rw [happ]
    exact userAssistantPairs_pairsOf _ _

/-- Two successful calls on session s1 from an empty store. -/
def callsW : List CallInput :=
  [ { req := reqW, t1 := 1, t2 := 2, t3 := 3, t4 := 4 },
    { req := reqHiW, t1 := 5, t2 := 6, t3 := 7, t4 := 8 } ]

theorem successful_calls_store_alternating_pairs_witness :
    storedMessages (runChats (some "k") netOkW callsW []).1 "s1"
        = pairsOf callsW (runChats (some "k") netOkW callsW []).2
    ∧ (storedMessages (runChats (some "k") netOkW callsW []).1 "s1").length
        = 2 * callsW.length
    ∧ userAssistantPairs (storedMessages (runChats (some "k") netOkW callsW []).1 "s1")
        = true :=
  successful_calls_store_alternating_pairs (some "k") netOkW "s1" callsW [] rfl
    (by decide) rfl

/-- C7 counterexample: on a call whose session holds one stored turn, the
history entry sent to the provider keeps its stored timestamp key, so it
does not have the claimed two-key {role, content} shape. -/
theorem sent_history_entry_carries_timestamp_cex :
    (chat_endpoint (some "k") netOkW 1 2 3 4 reqHiW storeOneW).sent
        = [[ { role := "system", content := CANDIDATE_INFO, timestamp := none },
             { role := "user", content := "earlier", timestamp := some 5 },
             { role := "user", content := "hi", timestamp := none } ]]
    ∧ ({ role := "user", content := "earlier", timestamp := some 5 }
          : ApiMessage).timestamp ≠ none :=
  ⟨rfl, by simp⟩

/-- C7 (amended): the client builds the provider message list as the system
prompt first, then the history turns in stored order — each history entry
keeping its stored three-key {role, content, timestamp} shape — then the
new user message ({role, content} only) last; on a success status from the
provider it returns the text content of the first completion choice. -/
theorem llm_message_list_structure (apiKey : Option String)
    (net : List ApiMessage → NetOutcome) :
    (∀ (msgs ms : List ApiMessage), (get_chat_response apiKey net msgs).sent = [ms] →
        ms = { role := "system", content := CANDIDATE_INFO, timestamp := none } :: msgs)
    ∧ (∀ (t1 t2 t3 t4 : Nat) (req : ChatRequest) (store : Store) (ms : List ApiMessage),
        (chat_endpoint apiKey net t1 t2 t3 t4 req store).sent = [ms] →
        ms = { role := "system", content := CANDIDATE_INFO, timestamp := none }
              :: ((contextWindow (storedMessages store req.session_id)).map
                    StoredMessage.toApi
                  ++ [{ role := "user", content := req.message, timestamp := none }])
        ∧ ∀ m ∈ (contextWindow (storedMessages store req.session_id)).map
              StoredMessage.toApi, m.timestamp ≠ none)
    ∧ (∀ (msgs : List ApiMessage) (r : HttpResponse),
        apiKeyFalsy apiKey = false →
        net ({ role := "system", content := CANDIDATE_INFO, timestamp := none } :: msgs)
            = .response r →
        r.status_code = 200 →
        (get_chat_response apiKey net msgs).result = .ok r.firstChoiceContent) := by
  refine ⟨fun msgs ms h => get_chat_response_sent_shape apiKey net msgs ms h, ?_, ?_⟩
  · intro t1 t2 t3 t4 req store ms h
    have hms : ms = { role := "system", content := CANDIDATE_INFO, timestamp := none }
        :: messagesForAi (get_or_create store req.session_id req.recruiter_info t1).1
             req.message := by
      apply get_chat_response_sent_shape apiKey net _ ms
      rw [← chat_endpoint_sent apiKey net t1 t2 t3 t4 req store]
      exact h
    constructor
    · rw [hms]
      unfold messagesForAi
      rw [get_or_create_messages]
    · intro m hm
      rcases List.mem_map.mp hm with ⟨x, _, rfl⟩
      simp [StoredMessage.toApi]
  · intro msgs r hk hnet h200
    unfold get_chat_response
    simp [hk, hnet, h200]

/-- The exact provider payload of the llm_message_list_structure witness. -/
def msHiW : List ApiMessage :=
  [ { role := "system", content := CANDIDATE_INFO, timestamp := none },
    { role := "user", content := "earlier", timestamp := some 5 },
    { role := "user", content := "hi", timestamp := none } ]

theorem llm_message_list_structure_witness :
    ((chat_endpoint (some "k") netOkW 1 2 3 4 reqHiW storeOneW).sent = [msHiW])
    ∧ msHiW = { role := "system", content := CANDIDATE_INFO, timestamp := none }
        :: ((contextWindow (storedMessages storeOneW "s1")).map StoredMessage.toApi
            ++ [{ role := "user", content := "hi", timestamp := none }])
    ∧ (get_chat_response (some "k") netOkW []).result
        = .ok "I have 5 years of Python experience." :=
  ⟨rfl,
   ((llm_message_list_structure (some "k") netOkW).2.1 1 2 3 4 reqHiW storeOneW
     msHiW rfl).1,
   (llm_message_list_structure (some "k") netOkW).2.2 []
     { status_code := 200, firstChoiceContent := "I have 5 years of Python experience.",
       text := "" } rfl rfl rfl⟩

/-- C8 counterexample: a chat call that creates session s1 and then fails at
the LLM step leaves the collection holding a record with no updated_at key,
so not every persisted record, in particular not a just-created one,
carries updated_at. -/
theorem created_record_lacks_updated_at_cex :
    ((chat_endpoint (some "k") netTimeoutW 1 2 3 4 reqW []).store
        = [{ session_id := "s1", messages := [], recruiter_info := none,
             created_at := 1, updated_at := none }])
    ∧ (((chat_endpoint (some "k") netTimeoutW 1 2 3 4 reqW []).store.all
          (fun d => d.updated_at.isSome)) = false) :=
  ⟨rfl, rfl⟩

/-- C8 (amended): every persisted record carries session_id, messages of
{role, content, timestamp} turns, recruiter_info and created_at from
creation, but the updated_at key is absent on a freshly created record; it
is set (to the call wall-clock t4) by a successful chat call on the
session. -/
theorem updated_at_present_only_after_successful_append :
    (∀ (store : Store) (sid : String) (rinfo : Option RecruiterInfo) (t1 : Nat),
        find_one store sid = none →
        (get_or_create store sid rinfo t1).1.created_at = t1
        ∧ (get_or_create store sid rinfo t1).1.messages = []
        ∧ (get_or_create store sid rinfo t1).1.recruiter_info = rinfo
        ∧ (get_or_create store sid rinfo t1).1.updated_at = none)
    ∧ (∀ (apiKey : Option String) (net : List ApiMessage → NetOutcome)
        (t1 t2 t3 t4 : Nat) (req : ChatRequest) (store : Store) (resp : ChatResponse),
        (chat_endpoint apiKey net t1 t2 t3 t4 req store).result = .ok resp →
        ∃ d', find_one (chat_endpoint apiKey net t1 t2 t3 t4 req store).store
                req.session_id = some d'
          ∧ d'.updated_at = some t4) := by
  constructor
  · intro store sid rinfo t1 h
    rw [get_or_create_absent store sid rinfo t1 h]
    exact ⟨rfl, rfl, rfl, rfl⟩
  · intro apiKey net t1 t2 t3 t4 req store resp h
    cases hr : (get_chat_response apiKey net
        (messagesForAi (get_or_create store req.session_id req.recruiter_info t1).1
          req.message)).result with
    | error e =>
        rw [chat_endpoint_of_error apiKey net t1 t2 t3 t4 req store e hr] at h
        simp at h
    | ok ai =>
        rw [chat_endpoint_of_ok apiKey net t1 t2 t3 t4 req store ai hr]
        have hf := find_one_update_one_push
          (get_or_create store req.session_id req.recruiter_info t1).2 req.session_id
          [ { role := "user", content := req.message, timestamp := t2 },
            { role := "assistant", content := ai, timestamp := t3 } ] t4
        rw [find_one_get_or_create store req.session_id req.recruiter_info t1] at hf
        simp only [Option.map_some'] at hf
        exact ⟨_, hf, rfl⟩

theorem updated_at_present_only_after_successful_append_witness :
    ((get_or_create [] "s1" none 1).1.updated_at = none)
    ∧ ((chat_endpoint (some "k") netOkW 1 2 3 4 reqW []).result
        = .ok { response := "I have 5 years of Python experience.", session_id := "s1" })
    ∧ ∃ d', find_one (chat_endpoint (some "k") netOkW 1 2 3 4 reqW []).store "s1"
          = some d'
        ∧ d'.updated_at = some 4 :=
  ⟨(updated_at_present_only_after_successful_append.1 [] "s1" none 1 rfl).2.2.2,
   rfl,
   updated_at_present_only_after_successful_append.2 (some "k") netOkW 1 2 3 4 reqW []
     { response := "I have 5 years of Python experience.", session_id := "s1" } rfl⟩
